import Mathlib

/-!
# turso-cli: the database commands and the instances client

A shallow embedding of `internal/cmd/db.go` and `internal/turso/instances.go`.

* Go `error` values are the inductive `GoError`; a nil error is `none`.
* The network is a function from the call that is made to its outcome, and
  every operation returns the list of calls it made next to its result.
* A response body is the JSON document it holds (`Json`), or the error that
  reading or parsing it gives.
-/

set_option autoImplicit false

/-! ## Go values shared by both packages -/

/-- Go `error` values. `text` is what `errors.New` and `fmt.Errorf` without `%w`
build, `wrap` is `fmt.Errorf` with a trailing `%w` verb, and `unmarshalType` is the
`*json.UnmarshalTypeError` of `encoding/json` for the given struct field. -/
inductive GoError where
  | text (msg : String)
  | wrap (pfx : String) (inner : GoError)
  | unmarshalType (field : String)
  deriving DecidableEq, Repr

/-- Go `[]T`; the nil slice is `[]`. -/
abbrev Slice (α : Type) := List α

/-- A JSON document. An object keeps its members in document order and may
repeat a key. `num` is an integer literal (sign and magnitude), `frac` a number
literal with a fraction or an exponent. -/
inductive Json where
  | null
  | bool (b : Bool)
  | num (neg : Bool) (mag : Nat)
  | frac (lit : String)
  | str (s : String)
  | arr (xs : List Json)
  | obj (kvs : List (String × Json))

/-- `http.StatusOK` and the other status constants of `net/http`. -/
def StatusOK : Nat := 200
def StatusBadRequest : Nat := 400
def StatusUnauthorized : Nat := 401
def StatusForbidden : Nat := 403
def StatusNotFound : Nat := 404

/-- An `*http.Response` as far as the code reads it: the numeric status, the
status line (`"403 Forbidden"`) and the body. -/
structure Response where
  StatusCode : Nat
  Status : String
  Body : Except GoError Json

/-! ## `internal/cmd/db.go`: the region table -/

/-- The `regionIds` literal of `RegionsCmd.Run`. -/
def regionIds : Slice String :=
  ["ams", "cdg", "den", "dfw", "ewr", "fra", "gru", "hkg", "iad", "jnb", "lax", "lhr", "maa",
   "mad", "mia", "nrt", "ord", "otp", "scl", "sea", "sin", "sjc", "syd", "waw", "yul", "yyz"]

/-- `toLocation` of db.go: the display name of a region code. -/
def toLocation (regionId : String) : String :=
  match regionId with
  | "ams" => "Amsterdam, Netherlands"
  | "cdg" => "Paris, France"
  | "den" => "Denver, Colorado (US)"
  | "dfw" => "Dallas, Texas (US)"
  | "ewr" => "Secaucus, NJ (US)"
  | "fra" => "Frankfurt, Germany"
  | "gru" => "São Paulo"
  | "hkg" => "Hong Kong, Hong Kong"
  | "iad" => "Ashburn, Virginia (US)"
  | "jnb" => "Johannesburg, South Africa"
  | "lax" => "Los Angeles, California (US)"
  | "lhr" => "London, United Kingdom"
  | "maa" => "Chennai (Madras), India"
  | "mad" => "Madrid, Spain"
  | "mia" => "Miami, Florida (US)"
  | "nrt" => "Tokyo, Japan"
  | "ord" => "Chicago, Illinois (US)"
  | "otp" => "Bucharest, Romania"
  | "scl" => "Santiago, Chile"
  | "sea" => "Seattle, Washington (US)"
  | "sin" => "Singapore"
  | "sjc" => "Sunnyvale, California (US)"
  | "syd" => "Sydney, Australia"
  | "waw" => "Warsaw, Poland"
  | "yul" => "Montreal, Canada"
  | "yyz" => "Toronto, Canada"
  | _ => "Region ID: " ++ regionId

/-- `RegionsCmd.Run`: the lines printed, one per entry of the table; it returns nil. -/
def RegionsCmd.Run : Slice String × Option GoError :=
  (regionIds.map (fun regionId => "  " ++ regionId ++ " - " ++ toLocation regionId ++ "\n"), none)

/-! ## `internal/turso`: decoding response bodies -/

/-- Case folding of one rune as `encoding/json` applies it to object keys: ASCII
letters fold to lower case, and the two non-ASCII runes whose simple fold is an
ASCII letter (U+017F, U+212A) fold to `s` and `k`. -/
def foldRune (c : Char) : Char :=
  if c = Char.ofNat 0x17f then 's' else if c = Char.ofNat 0x212a then 'k' else c.toLower

/-- Whether the object key `key` selects the struct field whose JSON name is `name`
(exact or case-insensitive match). -/
def equalFold (key name : String) : Bool :=
  key.data.map foldRune == name.data.map foldRune

/-- The decoder keeps the first error it meets and goes on (`d.saveError`). -/
def saveError (saved new : Option GoError) : Option GoError :=
  match saved with
  | some e => some e
  | none => new

/-- Decoding a JSON value into a Go `string` field. -/
def decodeString (field : String) (cur : String) : Json → String × Option GoError
  | .str s => (s, none)
  | .null => (cur, none)
  | _ => (cur, some (.unmarshalType field))

/-- Decoding a JSON value into a Go `uint64` field: an integer literal that
`strconv.ParseUint` accepts, in range. -/
def decodeUint64 (field : String) (cur : Nat) : Json → Nat × Option GoError
  | .num false mag => if mag < 2 ^ 64 then (mag, none) else (cur, some (.unmarshalType field))
  | .null => (cur, none)
  | _ => (cur, some (.unmarshalType field))

/-- Decoding a JSON value into a Go struct: the members of an object are visited
in document order and `member` decodes one of them into the struct. -/
def decodeStruct {T : Type} (name : String) (member : T → String → Json → T × Option GoError)
    (cur : T) : Json → T × Option GoError
  | .obj kvs =>
      kvs.foldl (fun acc kv =>
        let r := member acc.1 kv.1 kv.2
        (r.1, saveError acc.2 r.2)) (cur, none)
  | .null => (cur, none)
  | _ => (cur, some (.unmarshalType name))

/-- The types `unmarshal[T]` is used at: the zero value of `T` and the decoding of
a document into a value of `T`. -/
class JsonTarget (T : Type) where
  zero : T
  decode : T → Json → T × Option GoError

/-- Modelled from the spec: `unmarshal[T]`, the typed JSON decoding of a response
(its source file is absent). A body that cannot be read or parsed gives
the zero value and the error; otherwise the document is decoded into the zero value as
`encoding/json` does, and the value is returned together with the first error. -/
def unmarshal {T : Type} [JsonTarget T] (r : Response) : T × Option GoError :=
  match r.Body with
  | .error e => (JsonTarget.zero, some e)
  | .ok doc => JsonTarget.decode JsonTarget.zero doc

/-- The anonymous `struct{ Error string }` of `Delete` and `Wait`. -/
structure ErrorBody where
  Error : String
  deriving DecidableEq, Repr

def ErrorBody.member (cur : ErrorBody) (key : String) (v : Json) : ErrorBody × Option GoError :=
  if equalFold key "Error" then
    let r := decodeString "Error" cur.Error v
    ({ cur with Error := r.1 }, r.2)
  else (cur, none)

instance : JsonTarget ErrorBody where
  zero := ⟨""⟩
  decode := decodeStruct "" ErrorBody.member

/-- `GetUsageResponse` of `GetUsage`; `uint64` is a natural number below `2 ^ 64`. -/
structure GetUsageResponse where
  RowsReadCount : Nat
  deriving DecidableEq, Repr

def GetUsageResponse.member (cur : GetUsageResponse) (key : String) (v : Json) :
    GetUsageResponse × Option GoError :=
  if equalFold key "rows_read_count" then
    let r := decodeUint64 "RowsReadCount" cur.RowsReadCount v
    ({ cur with RowsReadCount := r.1 }, r.2)
  else (cur, none)

instance : JsonTarget GetUsageResponse where
  zero := ⟨0⟩
  decode := decodeStruct "GetUsageResponse" GetUsageResponse.member

/-- `Instance` of instances.go (its field `Type` is `Typ` here). -/
structure Instance where
  Uuid : String
  Name : String
  Typ : String
  Region : String
  Hostname : String
  deriving DecidableEq, Repr

def Instance.zero : Instance := ⟨"", "", "", "", ""⟩

def Instance.member (cur : Instance) (key : String) (v : Json) : Instance × Option GoError :=
  if equalFold key "Uuid" then
    let r := decodeString "Uuid" cur.Uuid v
    ({ cur with Uuid := r.1 }, r.2)
  else if equalFold key "Name" then
    let r := decodeString "Name" cur.Name v
    ({ cur with Name := r.1 }, r.2)
  else if equalFold key "Type" then
    let r := decodeString "Type" cur.Typ v
    ({ cur with Typ := r.1 }, r.2)
  else if equalFold key "Region" then
    let r := decodeString "Region" cur.Region v
    ({ cur with Region := r.1 }, r.2)
  else if equalFold key "Hostname" then
    let r := decodeString "Hostname" cur.Hostname v
    ({ cur with Hostname := r.1 }, r.2)
  else (cur, none)

/-- A `[]Instance` together with what its backing array holds past its length: Go keeps
those elements when a slice is shortened, and lengthening it within its capacity makes
them visible again. Storage past `spare` is zeroed. -/
structure InstanceSlice where
  elems : Slice Instance
  spare : Slice Instance
  deriving DecidableEq, Repr

/-- Decoding the elements of a JSON array over a backing array: element `i` is decoded
into what the backing array holds at `i` (a live or a stale element), or into a zero
value past its end. -/
def decodeElems : Slice Instance → List Json → Slice Instance × Option GoError
  | _, [] => ([], none)
  | backing, x :: xs =>
      let r := decodeStruct "Instance" Instance.member (backing.headD Instance.zero) x
      let rest := decodeElems backing.tail xs
      (r.1 :: rest.1, saveError r.2 rest.2)

/-- Decoding a JSON value into a `[]Instance` field. An array is decoded element by
element over the backing array of the current slice, whose length becomes the number of
elements; the empty array gives a fresh empty slice and `null` the nil slice. -/
def decodeInstances (field : String) (cur : InstanceSlice) :
    Json → InstanceSlice × Option GoError
  | .arr xs =>
      if xs.isEmpty then (⟨[], []⟩, none)
      else
        let backing := cur.elems ++ cur.spare
        let r := decodeElems backing xs
        (⟨r.1, backing.drop xs.length⟩, r.2)
  | .null => (⟨[], []⟩, none)
  | _ => (cur, some (.unmarshalType field))

/-- `ListResponse` of `List`. -/
structure ListResponse where
  Instances : InstanceSlice
  deriving DecidableEq, Repr

def ListResponse.member (cur : ListResponse) (key : String) (v : Json) :
    ListResponse × Option GoError :=
  if equalFold key "Instances" then
    let r := decodeInstances "Instances" cur.Instances v
    ({ cur with Instances := r.1 }, r.2)
  else (cur, none)

instance : JsonTarget ListResponse where
  zero := ⟨⟨[], []⟩⟩
  decode := decodeStruct "ListResponse" ListResponse.member

/-- The anonymous `struct{ Instance Instance }` of `Create`. -/
structure InstanceBody where
  Instance : Instance
  deriving DecidableEq, Repr

def InstanceBody.member (cur : InstanceBody) (key : String) (v : Json) :
    InstanceBody × Option GoError :=
  if equalFold key "Instance" then
    let r := decodeStruct "Instance" Instance.member cur.Instance v
    ({ cur with Instance := r.1 }, r.2)
  else (cur, none)

instance : JsonTarget InstanceBody where
  zero := ⟨Instance.zero⟩
  decode := decodeStruct "" InstanceBody.member

/-! ## `internal/turso`: the HTTP helper and the instances client -/

/-- One call of the HTTP helper: the method, the path it was given and the body. -/
structure Call where
  Method : String
  Path : String
  Body : Option Json

/-- The `Client` the resource clients share: its organization, and the network as
the outcome of each call (a response, or the message of the transport error). -/
structure Client where
  org : String
  Do : Call → Except String Response

/-- The result of an operation together with the calls it made, oldest first. -/
structure Traced (α : Type) where
  calls : Slice Call
  ret : α

/-- `client.Get(path, body)`. -/
def Client.Get (c : Client) (path : String) (body : Option Json) :
    Call × Except String Response :=
  (⟨"GET", path, body⟩, c.Do ⟨"GET", path, body⟩)

/-- `client.Post(path, body)`. -/
def Client.Post (c : Client) (path : String) (body : Option Json) :
    Call × Except String Response :=
  (⟨"POST", path, body⟩, c.Do ⟨"POST", path, body⟩)

/-- `client.Delete(path, body)`. -/
def Client.Delete (c : Client) (path : String) (body : Option Json) :
    Call × Except String Response :=
  (⟨"DELETE", path, body⟩, c.Do ⟨"DELETE", path, body⟩)

/-- Modelled from the spec: `isNotMemberErr`, whose source file is
absent. The spec: a 401/403 answer to an organization-scoped request is the membership
error, detected by "inspecting status code plus presence of an org string". -/
def isNotMemberErr (status : Nat) (org : String) : Bool :=
  (status == StatusUnauthorized || status == StatusForbidden) && org != ""

/-- Modelled from the spec: `notMemberErr`, whose source file is
absent: the "not a member of organization <org>" error, naming the organization. -/
def notMemberErr (org : String) : GoError :=
  .text ("not a member of organization " ++ org)

/-- The `Body` struct of `Create`. -/
structure CreateBody where
  Region : String
  Image : String
  InstanceName : String

/-- Modelled from the spec: `marshal`, whose source file is absent, at
the `Body` of `Create`: the JSON encoding of the struct under its field tags, where
`instance_name` is left out when empty. Encoding three strings cannot fail. -/
def marshal (b : CreateBody) : Except GoError Json :=
  .ok (.obj ([("Region", .str b.Region), ("Image", .str b.Image)] ++
    (if b.InstanceName = "" then [] else [("instance_name", .str b.InstanceName)])))

/-- `InstancesClient` of instances.go, a view of the shared client. -/
structure InstancesClient where
  client : Client

/-- `InstancesClient.URL`. -/
def InstancesClient.URL (d : InstancesClient) (database suffix : String) : String :=
  let pfx := if d.client.org ≠ "" then "/v1/organizations/" ++ d.client.org else "/v1"
  pfx ++ "/databases/" ++ database ++ "/instances" ++ suffix

/-- `InstancesClient.List`. -/
def InstancesClient.List (i : InstancesClient) (db : String) :
    Traced (Slice Instance × Option GoError) :=
  let (call, res) := i.client.Get (i.URL db "") none
  match res with
  | .error err =>
      ⟨[call], ([], some (.text ("failed to list instances of " ++ db ++ ": " ++ err)))⟩
  | .ok r =>
      let org := i.client.org
      if isNotMemberErr r.StatusCode org then ⟨[call], ([], some (notMemberErr org))⟩
      else if r.StatusCode ≠ StatusOK then
        ⟨[call], ([], some (.text ("response with status code " ++ toString r.StatusCode)))⟩
      else
        match unmarshal r with
        | (_, some err) => ⟨[call], ([], some err)⟩
        | (resp, none) => ⟨[call], ((ListResponse.Instances resp).elems, none)⟩

/-- `InstancesClient.Delete`. -/
def InstancesClient.Delete (i : InstancesClient) (db inst : String) : Traced (Option GoError) :=
  let url := i.URL db ("/" ++ inst)
  let (call, res) := i.client.Delete url none
  match res with
  | .error err =>
      ⟨[call], some (.text ("failed to destroy instances " ++ inst ++ " of " ++ db ++ ": " ++ err))⟩
  | .ok r =>
      let org := i.client.org
      if isNotMemberErr r.StatusCode org then ⟨[call], some (notMemberErr org)⟩
      else if r.StatusCode = StatusBadRequest then
        let body : ErrorBody := (unmarshal r).1
        ⟨[call], some (.text body.Error)⟩
      else if r.StatusCode = StatusNotFound then
        let body : ErrorBody := (unmarshal r).1
        ⟨[call], some (.text body.Error)⟩
      else if r.StatusCode ≠ StatusOK then
        ⟨[call], some (.text ("response with status code " ++ toString r.StatusCode))⟩
      else ⟨[call], none⟩

/-- `InstancesClient.Create`; the result is the instance (nil is `none`) and the error.
`parseResponseError`, whose source file is absent, is an argument. -/
def InstancesClient.Create (d : InstancesClient) (parseResponseError : Response → GoError)
    (dbName instanceName region image : String) : Traced (Option Instance × Option GoError) :=
  match marshal ⟨region, image, instanceName⟩ with
  | .error err => ⟨[], (none, some (.wrap "could not serialize request body: " err))⟩
  | .ok body =>
      let url := d.URL dbName ""
      let (call, res) := d.client.Post url (some body)
      match res with
      | .error err =>
          ⟨[call], (none,
            some (.text ("failed to create new instances for " ++ dbName ++ ": " ++ err)))⟩
      | .ok res =>
          let org := d.client.org
          if isNotMemberErr res.StatusCode org then ⟨[call], (none, some (notMemberErr org))⟩
          else if res.StatusCode ≠ StatusOK then ⟨[call], (none, some (parseResponseError res))⟩
          else
            match unmarshal res with
            | (_, some err) =>
                ⟨[call], (none, some (.wrap "failed to deserialize response: " err))⟩
            | (data, none) => ⟨[call], (some (InstanceBody.Instance data), none)⟩

/-- `InstancesClient.Wait`. -/
def InstancesClient.Wait (i : InstancesClient) (db inst : String) : Traced (Option GoError) :=
  let url := i.URL db ("/" ++ inst ++ "/wait")
  let (call, res) := i.client.Get url none
  match res with
  | .error err =>
      ⟨[call], some (.text
        ("failed to wait for instance " ++ inst ++ " to of " ++ db ++ " be ready: " ++ err))⟩
  | .ok r =>
      let org := i.client.org
      if isNotMemberErr r.StatusCode org then ⟨[call], some (notMemberErr org)⟩
      else if r.StatusCode = StatusBadRequest then
        let body : ErrorBody := (unmarshal r).1
        ⟨[call], some (.text body.Error)⟩
      else if r.StatusCode = StatusNotFound then
        let body : ErrorBody := (unmarshal r).1
        ⟨[call], some (.text body.Error)⟩
      else if r.StatusCode ≠ StatusOK then
        ⟨[call], some (.text ("response with status code " ++ toString r.StatusCode))⟩
      else ⟨[call], none⟩

/-- `InstancesClient.GetUsage`. -/
def InstancesClient.GetUsage (i : InstancesClient) (instanceID : String) :
    Traced (Nat × Option GoError) :=
  let url := "/v1/instances/" ++ instanceID ++ "/usage"
  let (call, res) := i.client.Get url none
  match res with
  | .error err => ⟨[call], (0, some (.text ("failed to get instance usage: " ++ err)))⟩
  | .ok res =>
      if res.StatusCode ≠ StatusOK then
        ⟨[call], (0, some (.text ("failed to get instance usage: " ++ res.Status)))⟩
      else
        let resp : GetUsageResponse × Option GoError := unmarshal res
        ⟨[call], (resp.1.RowsReadCount, resp.2)⟩

/-! ## `internal/cmd/db.go`: the commands -/

/-- An `*http.Request` as the commands build it. -/
structure Request where
  Method : String
  URL : String
  Header : Slice (String × String)
  Body : String
  deriving DecidableEq, Repr

/-- What a command run depends on outside the program: the environment variables
(`Getenv` is `""` for an unset one), the name generator of the `codename` package, the
error `http.NewRequest` gives for a URL it cannot parse, the network, the clock and the
child process. -/
structure World where
  Getenv : String → String
  DefaultRNG : Except GoError Nat
  Generate : Nat → Nat → String
  NewRequestErr : String → Option GoError
  Do : Request → Except GoError Response
  ElapsedSeconds : Int
  Psql : String → Option GoError

/-- How a run ends: it returns an error value (nil is `none`), or a type assertion
on the decoded response panics. -/
inductive Exit where
  | returned (err : Option GoError)
  | panicked
  deriving DecidableEq, Repr

/-- What a run did: the HTTP requests it performed, what `fmt.Printf` and `fmt.Println`
wrote, the child processes it ran, and how it ended. The spinner and the two-second
sleep are not part of the model. -/
structure RunResult where
  requests : Slice Request
  printed : Slice String
  spawned : Slice (Slice String)
  exit : Exit
  deriving DecidableEq, Repr

/-- `http.NewRequest(method, url, body)`: an error for a URL that does not parse, else
the request without headers. -/
def NewRequest (w : World) (method url body : String) : Except GoError Request :=
  match w.NewRequestErr url with
  | some err => .error err
  | none => .ok ⟨method, url, [], body⟩

/-- `req.Header.Add(key, value)`. -/
def Request.addHeader (req : Request) (key value : String) : Request :=
  { req with Header := req.Header ++ [(key, value)] }

/-- `m[key]` on the map a JSON object decodes to: the last member with that key, nil
when there is none. -/
def mapIndex (m : List (String × Json)) (key : String) : Option Json :=
  m.foldl (fun acc kv => if kv.1 = key then some kv.2 else acc) none

/-- The type assertion `v.(map[string]interface{})`; `none` is the panic. -/
def assertMap : Option Json → Option (List (String × Json))
  | some (.obj kvs) => some kvs
  | _ => none

/-- The type assertion `v.(string)`; `none` is the panic. -/
def assertString : Option Json → Option String
  | some (.str s) => some s
  | _ => none

/-- `CreateCmd` of db.go. -/
structure CreateCmd where
  Name : String
  deriving DecidableEq, Repr

/-- `ReplicateCmd` of db.go. -/
structure ReplicateCmd where
  Name : String
  Region : String
  deriving DecidableEq, Repr

/-- The message both commands return when the access token is missing. -/
def tokenMissing : GoError :=
  .text "please set the `IKU_API_TOKEN` environment variable to your access token"

/-- `CreateCmd.Run`. -/
def CreateCmd.Run (cmd : CreateCmd) (w : World) : RunResult :=
  let generated : Except GoError String :=
    if cmd.Name = "" then
      match w.DefaultRNG with
      | .error err => .error err
      | .ok rng => .ok (w.Generate rng 0)
    else .ok cmd.Name
  match generated with
  | .error err => ⟨[], [], [], .returned (some err)⟩
  | .ok name =>
      let accessToken := w.Getenv "IKU_API_TOKEN"
      if accessToken = "" then ⟨[], [], [], .returned (some tokenMissing)⟩
      else
        let host := if w.Getenv "IKU_API_HOSTNAME" = "" then "https://api.chiseledge.com"
          else w.Getenv "IKU_API_HOSTNAME"
        let url := host ++ "/v1/databases"
        let bearer := "Bearer " ++ accessToken
        let region := "fra"
        let createDbReq :=
          "\x7b\"name\": \"" ++ name ++ "\", \"region\": \"" ++ region ++ "\"\x7d"
        match NewRequest w "POST" url createDbReq with
        | .error err => ⟨[], [], [], .returned (some err)⟩
        | .ok req0 =>
            let req := req0.addHeader "Authorization" bearer
            match w.Do req with
            | .error err => ⟨[req], [], [], .returned (some err)⟩
            | .ok resp =>
                if resp.StatusCode ≠ StatusOK then
                  ⟨[req], [], [],
                    .returned (some (.text ("Failed to create database: " ++ resp.Status)))⟩
                else
                  match resp.Body with
                  | .error err => ⟨[req], [], [], .returned (some err)⟩
                  | .ok result =>
                      let fields : Option (String × String × String) := do
                        let m ← assertMap (mapIndex (← assertMap (some result)) "database")
                        let dbHost ← assertString (mapIndex m "Host")
                        let dbType ← assertString (mapIndex m "Type")
                        let dbRegion ← assertString (mapIndex m "Region")
                        pure (dbHost, dbType, dbRegion)
                      match fields with
                      | none => ⟨[req], [], [], .panicked⟩
                      | some (dbHost, dbType, dbRegion) =>
                          let pgUrl := "postgresql://" ++ dbHost ++ ":5000"
                          let out :=
                            ["Created database `" ++ name ++ "` in " ++
                               toString w.ElapsedSeconds ++ " seconds.\n\n",
                             "You can access the database at:\n\n",
                             "   " ++ pgUrl ++ " [" ++ dbType ++ " in " ++
                               toLocation dbRegion ++ "]\n",
                             "\n",
                             "Connecting SQL shell to the server...\n\n"]
                          ⟨[req], out, [["psql", pgUrl]], .returned (w.Psql pgUrl)⟩

/-- `ReplicateCmd.Run`. -/
def ReplicateCmd.Run (cmd : ReplicateCmd) (w : World) : RunResult :=
  let name := cmd.Name
  if name = "" then
    ⟨[], [], [], .returned (some (.text "You must specify a database name to replicate it."))⟩
  else
    let region := cmd.Region
    if region = "" then
      ⟨[], [], [],
        .returned (some (.text "You must specify a database region ID to replicate it."))⟩
    else
      let accessToken := w.Getenv "IKU_API_TOKEN"
      if accessToken = "" then ⟨[], [], [], .returned (some tokenMissing)⟩
      else
        let host := if w.Getenv "IKU_API_HOSTNAME" = "" then "https://api.chiseledge.com"
          else w.Getenv "IKU_API_HOSTNAME"
        let url := host ++ "/v1/databases"
        let bearer := "Bearer " ++ accessToken
        let createDbReq :=
          "\x7b\"name\": \"" ++ name ++ "\", \"region\": \"" ++ region ++
            "\", \"type\": \"replica\"\x7d"
        match NewRequest w "POST" url createDbReq with
        | .error err => ⟨[], [], [], .returned (some err)⟩
        | .ok req0 =>
            let req := req0.addHeader "Authorization" bearer
            match w.Do req with
            | .error err => ⟨[req], [], [], .returned (some err)⟩
            | .ok resp =>
                if resp.StatusCode ≠ StatusOK then
                  ⟨[req], [], [],
                    .returned (some (.text ("Failed to create database: " ++ resp.Status)))⟩
                else
                  match resp.Body with
                  | .error err => ⟨[req], [], [], .returned (some err)⟩
                  | .ok result =>
                      let fields : Option (String × String) := do
                        let m ← assertMap (mapIndex (← assertMap (some result)) "database")
                        let dbHost ← assertString (mapIndex m "Host")
                        let dbRegion ← assertString (mapIndex m "Region")
                        pure (dbHost, dbRegion)
                      match fields with
                      | none => ⟨[req], [], [], .panicked⟩
                      | some (dbHost, dbRegion) =>
                          let pgUrl := "postgresql://" ++ dbHost ++ ":5000"
                          let out :=
                            ["Replicated database `" ++ name ++ "` to " ++
                               toLocation dbRegion ++ " in " ++
                               toString w.ElapsedSeconds ++ " seconds.\n\n",
                             "You can access the database by running:\n\n",
                             "   psql " ++ pgUrl ++ "\n",
                             "\n"]
                          ⟨[req], out, [], .returned none⟩

/-! ## Concrete inputs -/

/-- A response with the given status and JSON body. -/
def mockResponse (code : Nat) (status : String) (body : Json) : Response :=
  ⟨code, status, .ok body⟩

/-- A client in organization `org` whose server answers every call with `r`. -/
def mockClient (org : String) (r : Response) : InstancesClient :=
  ⟨⟨org, fun _ => .ok r⟩⟩

/-- The body `\x7b"error":"instance not found"\x7d`. -/
def notFoundBody : Json := .obj [("error", .str "instance not found")]

/-- The body `\x7b"rows_read_count": 42\x7d`. -/
def usageBody : Json := .obj [("rows_read_count", .num false 42)]

/-- A world with the given environment in which the name generator fails or gives
`"quiet-river"`, every URL parses, and the server answers every request with `r`. -/
def mockWorld (getenv : String → String) (rngFails : Bool) (r : Response) : World where
  Getenv := getenv
  DefaultRNG := if rngFails then .error (.text "entropy source unavailable") else .ok 7
  Generate := fun _ _ => "quiet-river"
  NewRequestErr := fun _ => none
  Do := fun _ => .ok r
  ElapsedSeconds := 3
  Psql := fun _ => none

/-- An environment with no variable set. -/
def emptyEnv : String → String := fun _ => ""

/-- An environment that sets only `IKU_API_TOKEN`, to `"s3cr3t"`. -/
def tokenEnv : String → String := fun k => if k = "IKU_API_TOKEN" then "s3cr3t" else ""

/-- Whether the message `msg` contains `word`. -/
def mentions (msg word : String) : Prop :=
  ∃ pre post : String, msg = pre ++ word ++ post

/-! ## Lemmas -/

theorem append_ne_empty_of_left (a b : String) (h : a ≠ "") : a ++ b ≠ "" := by
  intro hab
  apply h
  have h1 : (a ++ b).data = [] := by rw [hab]
  rw [String.data_append] at h1
  have h2 : a.data = [] := (List.append_eq_nil.mp h1).1
  exact String.ext h2

theorem toLocation_fallback (r : String) (h : r ∉ regionIds) :
    toLocation r = "Region ID: " ++ r := by
  simp only [regionIds, List.mem_cons, List.mem_singleton, List.not_mem_nil, or_false,
    not_or] at h
  unfold toLocation
  split <;> simp_all

theorem toLocation_table (r : String) (h : r ∈ regionIds) : toLocation r ≠ "" := by
  simp only [regionIds, List.mem_cons, List.mem_singleton, List.not_mem_nil, or_false] at h
  rcases h with h | h | h | h | h | h | h | h | h | h | h | h | h | h | h | h | h | h | h | h |
    h | h | h | h | h | h <;> subst h <;> decide

theorem saveError_none (e : Option GoError) : saveError e none = e := by
  cases e <;> rfl

theorem foldl_filter_skip {α β : Type} (p : β → Bool) (f : α → β → α)
    (hskip : ∀ a b, p b = false → f a b = a) (l : List β) (a : α) :
    l.foldl f a = (l.filter p).foldl f a := by
  induction l generalizing a with
  | nil => rfl
  | cons b bs ih =>
    cases hb : p b with
    | true => simp [List.filter, hb, ih]
    | false => simp [List.filter, hb, hskip a b hb, ih]

theorem text_ne_of_head (a b : String) (x y : String) (hx : x.data.head? ≠ y.data.head?)
    (hx1 : x.data ≠ []) (hy1 : y.data ≠ []) : GoError.text (x ++ a) ≠ GoError.text (y ++ b) := by
  intro h
  injection h with h
  have h1 := congrArg String.data h
  simp only [String.data_append] at h1
  apply hx
  have h2 := congrArg List.head? h1
  rwa [List.head?_append_of_ne_nil _ hx1, List.head?_append_of_ne_nil _ hy1] at h2

theorem not_mentions_of_char (msg word : String) (c : Char) (hc : c ∈ word.data)
    (hm : c ∉ msg.data) : ¬ mentions msg word := by
  rintro ⟨pre, post, h⟩
  apply hm
  rw [h]
  simp only [String.data_append, List.mem_append]
  exact Or.inl (Or.inr hc)

theorem mentions_append (pre word post : String) : mentions (pre ++ word ++ post) word :=
  ⟨pre, post, rfl⟩

/-! ## The region table -/

/-- C9: `toLocation` returns a non-empty string for every input; for each of the 26
codes of the table printed by `db regions` the result is non-empty, and for every code
outside the table the result is `"Region ID: "` followed by the code, which it thus
contains verbatim. -/
theorem toLocation_nonempty_and_fallback (regionId : String) :
    toLocation regionId ≠ "" ∧
    regionIds.length = 26 ∧
    (regionId ∈ regionIds → toLocation regionId ≠ "") ∧
    (regionId ∉ regionIds →
      toLocation regionId = "Region ID: " ++ regionId ∧
      mentions (toLocation regionId) regionId) := by
  have hfb : regionId ∉ regionIds → toLocation regionId = "Region ID: " ++ regionId :=
    toLocation_fallback regionId
  refine ⟨?_, rfl, toLocation_table regionId, ?_⟩
  · by_cases h : regionId ∈ regionIds
    · exact toLocation_table regionId h
    · rw [hfb h]
      exact append_ne_empty_of_left _ _ (by decide)
  · intro h
    refine ⟨hfb h, ?_⟩
    rw [hfb h]
    exact ⟨"Region ID: ", "", by simp⟩

theorem toLocation_nonempty_and_fallback_witness :
    toLocation "fra" ≠ "" ∧ toLocation "mars" = "Region ID: mars" :=
  ⟨(toLocation_nonempty_and_fallback "fra").2.2.1 (by decide),
   ((toLocation_nonempty_and_fallback "mars").2.2.2 (by decide)).1⟩

/-! ## The commands -/

/-- C1: a `ReplicateCmd` whose name or region is empty returns the configuration error
for the missing argument (the name is checked first) and performs no HTTP request,
prints nothing and starts no process, whatever the environment holds. -/
theorem replicate_requires_arguments (cmd : ReplicateCmd) (w : World)
    (h : cmd.Name = "" ∨ cmd.Region = "") :
    (cmd.Run w).requests = [] ∧ (cmd.Run w).printed = [] ∧ (cmd.Run w).spawned = [] ∧
    (cmd.Name = "" → (cmd.Run w).exit =
      .returned (some (.text "You must specify a database name to replicate it."))) ∧
    (cmd.Name ≠ "" → (cmd.Run w).exit =
      .returned (some (.text "You must specify a database region ID to replicate it."))) := by
  unfold ReplicateCmd.Run
  by_cases hn : cmd.Name = ""
  · simp [hn]
  · have hr : cmd.Region = "" := h.resolve_left hn
    simp [hn, hr]

theorem replicate_requires_arguments_witness :
    (ReplicateCmd.Run ⟨"db", ""⟩ (mockWorld tokenEnv false (mockResponse 200 "200 OK" .null))).requests
      = [] ∧
    (ReplicateCmd.Run ⟨"", "fra"⟩ (mockWorld tokenEnv false (mockResponse 200 "200 OK" .null))).exit
      = .returned (some (.text "You must specify a database name to replicate it.")) :=
  ⟨(replicate_requires_arguments ⟨"db", ""⟩ _ (Or.inr rfl)).1,
   (replicate_requires_arguments ⟨"", "fra"⟩ _ (Or.inl rfl)).2.2.2.1 rfl⟩

/-- C2, as the code behaves: with `IKU_API_TOKEN` unset or empty neither command
performs an HTTP request, for any argument; `CreateCmd.Run` returns the error naming
`IKU_API_TOKEN` whenever it has a name (given, or generated without error), and
`ReplicateCmd.Run` returns it whenever its name and region are both non-empty. What is
checked before the token is reported first: `replicate` returns the missing-name error
for an empty name and the missing-region error for an empty region, and `create` with an
empty name returns the error of the name generator when it fails. -/
theorem token_missing_no_request (w : World) (c : CreateCmd) (r : ReplicateCmd)
    (h : w.Getenv "IKU_API_TOKEN" = "") :
    (c.Run w).requests = [] ∧ (r.Run w).requests = [] ∧
    ((c.Name ≠ "" ∨ ∃ rng, w.DefaultRNG = .ok rng) →
      c.Run w = ⟨[], [], [], .returned (some tokenMissing)⟩) ∧
    (r.Name ≠ "" → r.Region ≠ "" → r.Run w = ⟨[], [], [], .returned (some tokenMissing)⟩) ∧
    (∃ msg, tokenMissing = .text msg ∧ mentions msg "IKU_API_TOKEN") ∧
    (r.Name = "" → r.Run w = ⟨[], [], [],
      .returned (some (.text "You must specify a database name to replicate it."))⟩) ∧
    (r.Name ≠ "" → r.Region = "" → r.Run w = ⟨[], [], [],
      .returned (some (.text "You must specify a database region ID to replicate it."))⟩) ∧
    (∀ err, c.Name = "" → w.DefaultRNG = .error err →
      c.Run w = ⟨[], [], [], .returned (some err)⟩) := by
  refine ⟨?_, ?_, ?_, ?_, ?_, ?_, ?_, ?_⟩
  · unfold CreateCmd.Run
    by_cases hn : c.Name = ""
    · cases hrng : w.DefaultRNG <;> simp [hn, hrng, h]
    · simp [hn, h]
  · unfold ReplicateCmd.Run
    by_cases hn : r.Name = ""
    · simp [hn]
    · by_cases hr : r.Region = ""
      · simp [hn, hr]
      · simp [hn, hr, h]
  · intro hc
    unfold CreateCmd.Run
    by_cases hn : c.Name = ""
    · rcases hc with hc | ⟨rng, hrng⟩
      · exact absurd hn hc
      · simp [hn, hrng, h]
    · simp [hn, h]
  · intro hn hr
    unfold ReplicateCmd.Run
    simp [hn, hr, h]
  · exact ⟨_, rfl, mentions_append "please set the `" "IKU_API_TOKEN"
      "` environment variable to your access token"⟩
  · intro hn
    unfold ReplicateCmd.Run
    simp [hn]
  · intro hn hr
    unfold ReplicateCmd.Run
    simp [hn, hr]
  · intro err hn hrng
    unfold CreateCmd.Run
    simp [hn, hrng]

theorem token_missing_no_request_witness :
    CreateCmd.Run ⟨""⟩ (mockWorld emptyEnv false (mockResponse 200 "200 OK" .null))
      = ⟨[], [], [], .returned (some tokenMissing)⟩ ∧
    ReplicateCmd.Run ⟨"db", "fra"⟩ (mockWorld emptyEnv false (mockResponse 200 "200 OK" .null))
      = ⟨[], [], [], .returned (some tokenMissing)⟩ ∧
    ReplicateCmd.Run ⟨"db", ""⟩ (mockWorld emptyEnv false (mockResponse 200 "200 OK" .null))
      = ⟨[], [], [],
          .returned (some (.text "You must specify a database region ID to replicate it."))⟩ ∧
    CreateCmd.Run ⟨""⟩ (mockWorld emptyEnv true (mockResponse 200 "200 OK" .null))
      = ⟨[], [], [], .returned (some (.text "entropy source unavailable"))⟩ :=
  ⟨(token_missing_no_request (mockWorld emptyEnv false (mockResponse 200 "200 OK" .null))
      ⟨""⟩ ⟨"db", "fra"⟩ rfl).2.2.1 (Or.inr ⟨7, rfl⟩),
   (token_missing_no_request (mockWorld emptyEnv false (mockResponse 200 "200 OK" .null))
      ⟨""⟩ ⟨"db", "fra"⟩ rfl).2.2.2.1 (by decide) (by decide),
   (token_missing_no_request (mockWorld emptyEnv false (mockResponse 200 "200 OK" .null))
      ⟨""⟩ ⟨"db", ""⟩ rfl).2.2.2.2.2.2.1 (by decide) rfl,
   (token_missing_no_request (mockWorld emptyEnv true (mockResponse 200 "200 OK" .null))
      ⟨""⟩ ⟨"db", "fra"⟩ rfl).2.2.2.2.2.2.2 _ rfl rfl⟩

/-- C2 as stated fails: with no token set, `replicate` with an empty name returns the
missing-name error, whose message does not name `IKU_API_TOKEN`. -/
theorem token_error_not_always_first :
    emptyEnv "IKU_API_TOKEN" = "" ∧
    (ReplicateCmd.Run ⟨"", "fra"⟩
        (mockWorld emptyEnv false (mockResponse 200 "200 OK" .null))).exit
      = .returned (some (.text "You must specify a database name to replicate it.")) ∧
    ¬ mentions "You must specify a database name to replicate it." "IKU_API_TOKEN" :=
  ⟨rfl, rfl, not_mentions_of_char _ _ '_' (by decide) (by decide)⟩

/-- C10: with a non-empty token, every HTTP request either command performs is a POST
to `base ++ "/v1/databases"` with the single header `Authorization: Bearer <token>`,
where `base` is `IKU_API_HOSTNAME` when non-empty and `https://api.chiseledge.com`
otherwise, and there is at most one. `create` sends the region `fra` whatever its
input, `replicate` sends its region with type `replica`; and the request is issued
whenever the arguments are valid and `http.NewRequest` accepts the URL. -/
theorem commands_issue_one_post (w : World) (c : CreateCmd) (r : ReplicateCmd)
    (ht : w.Getenv "IKU_API_TOKEN" ≠ "") :
    let base := if w.Getenv "IKU_API_HOSTNAME" = "" then "https://api.chiseledge.com"
      else w.Getenv "IKU_API_HOSTNAME"
    let auth := [("Authorization", "Bearer " ++ w.Getenv "IKU_API_TOKEN")]
    let created (name : String) : Request :=
      ⟨"POST", base ++ "/v1/databases", auth,
        "\x7b\"name\": \"" ++ name ++ "\", \"region\": \"" ++ "fra" ++ "\"\x7d"⟩
    let replicated : Request :=
      ⟨"POST", base ++ "/v1/databases", auth,
        "\x7b\"name\": \"" ++ r.Name ++ "\", \"region\": \"" ++ r.Region ++
          "\", \"type\": \"replica\"\x7d"⟩
    (c.Run w).requests.length ≤ 1 ∧
    (∀ req ∈ (c.Run w).requests, ∃ name, req = created name) ∧
    (c.Name ≠ "" → w.NewRequestErr (base ++ "/v1/databases") = none →
      (c.Run w).requests = [created c.Name]) ∧
    (∀ rng, c.Name = "" → w.DefaultRNG = .ok rng →
      w.NewRequestErr (base ++ "/v1/databases") = none →
      (c.Run w).requests = [created (w.Generate rng 0)]) ∧
    (r.Run w).requests.length ≤ 1 ∧
    (∀ req ∈ (r.Run w).requests, req = replicated) ∧
    (r.Name ≠ "" → r.Region ≠ "" → w.NewRequestErr (base ++ "/v1/databases") = none →
      (r.Run w).requests = [replicated]) := by
  intro base auth created replicated
  have hcreate : ∀ name : String, (Except.ok name : Except GoError String) = (
      if c.Name = "" then
        match w.DefaultRNG with
        | .error err => .error err
        | .ok rng => .ok (w.Generate rng 0)
      else .ok c.Name) →
      (w.NewRequestErr (base ++ "/v1/databases") = none →
        (c.Run w).requests = [created name]) ∧
      ((c.Run w).requests = [] ∨ (c.Run w).requests = [created name]) := by
    intro name hname
    have hnone : w.NewRequestErr (base ++ "/v1/databases") = none →
        (c.Run w).requests = [created name] := by
      intro hreq
      unfold CreateCmd.Run
      simp only [← hname, ht, if_false]
      simp only [NewRequest, base, hreq]
      split
      · rfl
      · split
        · rfl
        · split
          · rfl
          · split <;> rfl
    refine ⟨hnone, ?_⟩
    cases hreq : w.NewRequestErr (base ++ "/v1/databases") with
    | some err =>
      left
      unfold CreateCmd.Run
      simp [← hname, ht, NewRequest, base, hreq]
    | none => exact Or.inr (hnone hreq)
  have hfail : ∀ err : GoError, (Except.error err : Except GoError String) = (
      if c.Name = "" then
        match w.DefaultRNG with
        | .error err => .error err
        | .ok rng => .ok (w.Generate rng 0)
      else .ok c.Name) → (c.Run w).requests = [] := by
    intro err herr
    unfold CreateCmd.Run
    simp [← herr]
  have hc : (c.Run w).requests = [] ∨ ∃ name, (c.Run w).requests = [created name] := by
    cases hg : (if c.Name = "" then
        match w.DefaultRNG with
        | .error err => (Except.error err : Except GoError String)
        | .ok rng => .ok (w.Generate rng 0)
      else .ok c.Name) with
    | error err => exact Or.inl (hfail err hg.symm)
    | ok name =>
      rcases (hcreate name hg.symm).2 with h | h
      · exact Or.inl h
      · exact Or.inr ⟨name, h⟩
  have hrnone : r.Name ≠ "" → r.Region ≠ "" →
      w.NewRequestErr (base ++ "/v1/databases") = none →
      (r.Run w).requests = [replicated] := by
    intro hn hr hreq
    unfold ReplicateCmd.Run
    simp only [hn, hr, ht, if_false]
    simp only [NewRequest, base, hreq]
    split
    · rfl
    · split
      · rfl
      · split
        · rfl
        · split <;> rfl
  have hr : (r.Run w).requests = [] ∨ (r.Run w).requests = [replicated] := by
    by_cases hn : r.Name = ""
    · left; unfold ReplicateCmd.Run; simp [hn]
    · by_cases hrg : r.Region = ""
      · left; unfold ReplicateCmd.Run; simp [hn, hrg]
      · cases hreq : w.NewRequestErr (base ++ "/v1/databases") with
        | some err =>
          left
          unfold ReplicateCmd.Run
          simp [hn, hrg, ht, NewRequest, base, hreq]
        | none => exact Or.inr (hrnone hn hrg hreq)
  refine ⟨?_, ?_, ?_, ?_, ?_, ?_, hrnone⟩
  · rcases hc with h | ⟨name, h⟩ <;> simp [h]
  · intro req hreq
    rcases hc with h | ⟨name, h⟩
    · simp [h] at hreq
    · exact ⟨name, by simpa [h] using hreq⟩
  · intro hn hreq
    exact (hcreate c.Name (by simp [hn])).1 hreq
  · intro rng hn hrng hreq
    exact (hcreate (w.Generate rng 0) (by simp [hn, hrng])).1 hreq
  · rcases hr with h | h <;> simp [h]
  · intro req hreq
    rcases hr with h | h
    · simp [h] at hreq
    · simpa [h] using hreq

theorem commands_issue_one_post_witness :
    (CreateCmd.Run ⟨"db"⟩ (mockWorld tokenEnv false (mockResponse 200 "200 OK" .null))).requests
      = [⟨"POST", "https://api.chiseledge.com/v1/databases",
          [("Authorization", "Bearer s3cr3t")], "\x7b\"name\": \"db\", \"region\": \"fra\"\x7d"⟩] ∧
    (ReplicateCmd.Run ⟨"db", "lhr"⟩
        (mockWorld tokenEnv false (mockResponse 200 "200 OK" .null))).requests
      = [⟨"POST", "https://api.chiseledge.com/v1/databases",
          [("Authorization", "Bearer s3cr3t")],
          "\x7b\"name\": \"db\", \"region\": \"lhr\", \"type\": \"replica\"\x7d"⟩] :=
  ⟨(commands_issue_one_post (mockWorld tokenEnv false (mockResponse 200 "200 OK" .null))
      ⟨"db"⟩ ⟨"db", "lhr"⟩ (by decide)).2.2.1 (by decide) rfl,
   (commands_issue_one_post (mockWorld tokenEnv false (mockResponse 200 "200 OK" .null))
      ⟨"db"⟩ ⟨"db", "lhr"⟩ (by decide)).2.2.2.2.2.2 (by decide) (by decide) rfl⟩

/-! ## The instances client -/

/-- C8: `URL` is `/v1/databases/<db>/instances<suffix>` without an organization and
`/v1/organizations/<org>/databases/<db>/instances<suffix>` with one; `List` calls the
path with the empty suffix, `Delete` the path with suffix `/<instance>`, and `Wait` the
path of `Delete` followed by `/wait`, each exactly once. -/
theorem instance_paths (i : InstancesClient) (db s inst : String) :
    (i.client.org = "" → i.URL db s = "/v1/databases/" ++ db ++ "/instances" ++ s) ∧
    (i.client.org ≠ "" → i.URL db s =
      "/v1/organizations/" ++ i.client.org ++ "/databases/" ++ db ++ "/instances" ++ s) ∧
    (i.List db).calls = [⟨"GET", i.URL db "", none⟩] ∧
    (i.Delete db inst).calls = [⟨"DELETE", i.URL db ("/" ++ inst), none⟩] ∧
    (i.Wait db inst).calls = [⟨"GET", i.URL db ("/" ++ inst) ++ "/wait", none⟩] := by
  refine ⟨?_, ?_, ?_, ?_, ?_⟩
  · intro h
    simp only [InstancesClient.URL, h, ne_eq, not_true_eq_false, if_false]
    rfl
  · intro h
    simp only [InstancesClient.URL, h, ne_eq, not_false_eq_true, if_true]
  · unfold InstancesClient.List
    simp only [Client.Get]
    split
    · rfl
    · split
      · rfl
      · split
        · rfl
        · split <;> rfl
  · unfold InstancesClient.Delete
    simp only [Client.Delete]
    split
    · rfl
    · split
      · rfl
      · split
        · rfl
        · split
          · rfl
          · split <;> rfl
  · have hurl : i.URL db ("/" ++ inst ++ "/wait") = i.URL db ("/" ++ inst) ++ "/wait" := by
      simp only [InstancesClient.URL, String.append_assoc]
    unfold InstancesClient.Wait
    simp only [Client.Get, hurl]
    split
    · rfl
    · split
      · rfl
      · split
        · rfl
        · split
          · rfl
          · split <;> rfl

theorem instance_paths_witness :
    InstancesClient.URL (mockClient "" (mockResponse 200 "200 OK" .null)) "db" "/i1"
      = "/v1/databases/db/instances/i1" ∧
    InstancesClient.URL (mockClient "acme" (mockResponse 200 "200 OK" .null)) "db" "/i1"
      = "/v1/organizations/acme/databases/db/instances/i1" :=
  ⟨(instance_paths (mockClient "" (mockResponse 200 "200 OK" .null)) "db" "/i1" "i1").1 rfl,
   (instance_paths (mockClient "acme" (mockResponse 200 "200 OK" .null)) "db" "/i1" "i1").2.1
     (by decide)⟩

/-- C3: in a non-empty organization, when the server answers 403, `List`, `Delete`,
`Wait` and `Create` all return the same error `notMemberErr org` (`List` and `Create`
with a nil result), whatever the body of the answer is. -/
theorem forbidden_is_not_member (i : InstancesClient) (parseResponseError : Response → GoError)
    (db inst instanceName region image : String) (horg : i.client.org ≠ "") :
    (∀ r, i.client.Do ⟨"GET", i.URL db "", none⟩ = .ok r → r.StatusCode = 403 →
      (i.List db).ret = ([], some (notMemberErr i.client.org))) ∧
    (∀ r, i.client.Do ⟨"DELETE", i.URL db ("/" ++ inst), none⟩ = .ok r → r.StatusCode = 403 →
      (i.Delete db inst).ret = some (notMemberErr i.client.org)) ∧
    (∀ r, i.client.Do ⟨"GET", i.URL db ("/" ++ inst ++ "/wait"), none⟩ = .ok r →
      r.StatusCode = 403 →
      (i.Wait db inst).ret = some (notMemberErr i.client.org)) ∧
    (∀ r body, marshal ⟨region, image, instanceName⟩ = .ok body →
      i.client.Do ⟨"POST", i.URL db "", some body⟩ = .ok r → r.StatusCode = 403 →
      (i.Create parseResponseError db instanceName region image).ret
        = (none, some (notMemberErr i.client.org))) := by
  have hm : isNotMemberErr 403 i.client.org = true := by
    simp [isNotMemberErr, StatusForbidden, horg]
  refine ⟨?_, ?_, ?_, ?_⟩
  · intro r hr hs
    simp [InstancesClient.List, Client.Get, hr, hs, hm]
  · intro r hr hs
    simp [InstancesClient.Delete, Client.Delete, hr, hs, hm]
  · intro r hr hs
    simp [InstancesClient.Wait, Client.Get, hr, hs, hm]
  · intro r body hb hr hs
    simp only [InstancesClient.Create, hb, Client.Post, hr, hs, hm, if_true]

theorem forbidden_is_not_member_witness :
    (InstancesClient.List (mockClient "acme" (mockResponse 403 "403 Forbidden" notFoundBody))
        "db").ret = ([], some (notMemberErr "acme")) ∧
    (InstancesClient.Create (mockClient "acme" (mockResponse 403 "403 Forbidden" notFoundBody))
        (fun _ => .text "other") "db" "" "fra" "latest").ret
      = (none, some (notMemberErr "acme")) :=
  ⟨(forbidden_is_not_member (mockClient "acme" (mockResponse 403 "403 Forbidden" notFoundBody))
      (fun _ => .text "other") "db" "i1" "" "fra" "latest" (by decide)).1 _ rfl rfl,
   (forbidden_is_not_member (mockClient "acme" (mockResponse 403 "403 Forbidden" notFoundBody))
      (fun _ => .text "other") "db" "i1" "" "fra" "latest" (by decide)).2.2.2 _ _ rfl rfl rfl⟩

theorem unmarshal_errorBody (r : Response) (kvs : List (String × Json)) (k e : String)
    (hb : r.Body = .ok (.obj kvs))
    (hf : kvs.filter (fun kv => equalFold kv.1 "Error") = [(k, .str e)]) :
    (unmarshal r : ErrorBody × Option GoError) = (⟨e⟩, none) := by
  have hk : equalFold k "Error" = true := by
    have hmem : (k, Json.str e) ∈ kvs.filter (fun kv => equalFold kv.1 "Error") := by
      rw [hf]; exact List.mem_singleton.mpr rfl
    simpa using (List.mem_filter.mp hmem).2
  simp only [unmarshal, hb, JsonTarget.decode, JsonTarget.zero, decodeStruct]
  rw [foldl_filter_skip (fun kv => equalFold kv.1 "Error")]
  · rw [hf]
    simp [ErrorBody.member, hk, decodeString, saveError]
  · intro a b hskip
    simp only [ErrorBody.member] at *
    simp [hskip, saveError_none]

theorem unmarshal_usage (r : Response) (kvs : List (String × Json)) (k : String) (n : Nat)
    (hb : r.Body = .ok (.obj kvs))
    (hf : kvs.filter (fun kv => equalFold kv.1 "rows_read_count") = [(k, .num false n)])
    (hn : n < 2 ^ 64) :
    (unmarshal r : GetUsageResponse × Option GoError) = (⟨n⟩, none) := by
  have hk : equalFold k "rows_read_count" = true := by
    have hmem : (k, Json.num false n) ∈
        kvs.filter (fun kv => equalFold kv.1 "rows_read_count") := by
      rw [hf]; exact List.mem_singleton.mpr rfl
    simpa using (List.mem_filter.mp hmem).2
  simp only [unmarshal, hb, JsonTarget.decode, JsonTarget.zero, decodeStruct]
  rw [foldl_filter_skip (fun kv => equalFold kv.1 "rows_read_count")]
  · rw [hf]
    have hn2 : n < 18446744073709551616 := by simpa using hn
    simp [GetUsageResponse.member, hk, decodeUint64, saveError, hn2]
  · intro a b hskip
    simp only [GetUsageResponse.member] at *
    simp [hskip, saveError_none]

/-- C4: `Delete` on a 400 or 404 answer whose body is a JSON object with one `error`
member, a string `e`, returns the error with message exactly `e`; on any other status
than 200 that is not a membership error it returns `response with status code <code>`,
and on 200 it returns nil. -/
theorem delete_status_handling (i : InstancesClient) (db inst : String) (r : Response)
    (hr : i.client.Do ⟨"DELETE", i.URL db ("/" ++ inst), none⟩ = .ok r) :
    (∀ kvs k e, (r.StatusCode = 400 ∨ r.StatusCode = 404) → r.Body = .ok (.obj kvs) →
      kvs.filter (fun kv => equalFold kv.1 "Error") = [(k, .str e)] →
      (i.Delete db inst).ret = some (.text e)) ∧
    (r.StatusCode ≠ 200 → r.StatusCode ≠ 400 → r.StatusCode ≠ 404 →
      isNotMemberErr r.StatusCode i.client.org = false →
      (i.Delete db inst).ret
        = some (.text ("response with status code " ++ toString r.StatusCode))) ∧
    (r.StatusCode = 200 → (i.Delete db inst).ret = none) := by
  refine ⟨?_, ?_, ?_⟩
  · intro kvs k e hs hb hf
    have hu := unmarshal_errorBody r kvs k e hb hf
    rcases hs with hs | hs <;>
      simp [InstancesClient.Delete, Client.Delete, hr, hs, hu, isNotMemberErr,
        StatusUnauthorized, StatusForbidden, StatusBadRequest, StatusNotFound]
  · intro h200 h400 h404 hm
    simp [InstancesClient.Delete, Client.Delete, hr, hm, h200, h400, h404,
      StatusBadRequest, StatusNotFound, StatusOK]
  · intro hs
    simp [InstancesClient.Delete, Client.Delete, hr, hs, isNotMemberErr,
      StatusUnauthorized, StatusForbidden, StatusBadRequest, StatusNotFound, StatusOK]

theorem delete_status_handling_witness :
    (InstancesClient.Delete (mockClient "acme" (mockResponse 400 "400 Bad Request" notFoundBody))
        "db" "i1").ret = some (.text "instance not found") ∧
    (InstancesClient.Delete (mockClient "acme" (mockResponse 500 "500 Oops" notFoundBody))
        "db" "i1").ret = some (.text "response with status code 500") :=
  ⟨(delete_status_handling (mockClient "acme" (mockResponse 400 "400 Bad Request" notFoundBody))
      "db" "i1" _ rfl).1 _ "error" _ (Or.inl rfl) rfl rfl,
   (delete_status_handling (mockClient "acme" (mockResponse 500 "500 Oops" notFoundBody))
      "db" "i1" _ rfl).2.1 (by decide) (by decide) (by decide) rfl⟩

/-- C5: `Wait` and `Delete` handle a response alike: given the same answer from the
server they return the same result, and each of them returns the body's error message
on 400 and on 404. -/
theorem wait_same_as_delete (i : InstancesClient) (db inst : String) (r : Response)
    (hd : i.client.Do ⟨"DELETE", i.URL db ("/" ++ inst), none⟩ = .ok r)
    (hw : i.client.Do ⟨"GET", i.URL db ("/" ++ inst ++ "/wait"), none⟩ = .ok r) :
    (i.Wait db inst).ret = (i.Delete db inst).ret ∧
    (r.StatusCode = 400 →
      (i.Wait db inst).ret = some (.text (unmarshal r : ErrorBody × Option GoError).1.Error)) ∧
    (r.StatusCode = 404 →
      (i.Wait db inst).ret = some (.text (unmarshal r : ErrorBody × Option GoError).1.Error)) := by
  refine ⟨?_, ?_, ?_⟩
  · simp only [InstancesClient.Wait, InstancesClient.Delete, Client.Get, Client.Delete, hd, hw]
    split
    · rfl
    · split
      · rfl
      · split
        · rfl
        · split <;> rfl
  · intro hs
    simp [InstancesClient.Wait, Client.Get, hw, hs, isNotMemberErr,
      StatusUnauthorized, StatusForbidden, StatusBadRequest]
  · intro hs
    simp [InstancesClient.Wait, Client.Get, hw, hs, isNotMemberErr,
      StatusUnauthorized, StatusForbidden, StatusBadRequest, StatusNotFound]

theorem wait_same_as_delete_witness :
    (InstancesClient.Wait (mockClient "acme" (mockResponse 404 "404 Not Found" notFoundBody))
        "db" "i1").ret
      = (InstancesClient.Delete (mockClient "acme" (mockResponse 404 "404 Not Found" notFoundBody))
        "db" "i1").ret :=
  (wait_same_as_delete (mockClient "acme" (mockResponse 404 "404 Not Found" notFoundBody))
    "db" "i1" _ rfl rfl).1

/-- C6: when the usage endpoint answers 200 with a JSON object whose one
`rows_read_count` member is the integer `n`, below `2 ^ 64`, `GetUsage` returns `n` and a
nil error. -/
theorem getUsage_returns_count (i : InstancesClient) (instanceID : String) (r : Response)
    (kvs : List (String × Json)) (k : String) (n : Nat)
    (hr : i.client.Do ⟨"GET", "/v1/instances/" ++ instanceID ++ "/usage", none⟩ = .ok r)
    (hs : r.StatusCode = 200) (hb : r.Body = .ok (.obj kvs))
    (hf : kvs.filter (fun kv => equalFold kv.1 "rows_read_count") = [(k, .num false n)])
    (hn : n < 2 ^ 64) :
    (i.GetUsage instanceID).ret = (n, none) := by
  have hu := unmarshal_usage r kvs k n hb hf hn
  simp [InstancesClient.GetUsage, Client.Get, hr, hs, hu, StatusOK]

theorem getUsage_returns_count_witness :
    (InstancesClient.GetUsage (mockClient "acme" (mockResponse 200 "200 OK" usageBody))
        "i1").ret = (42, none) :=
  getUsage_returns_count (mockClient "acme" (mockResponse 200 "200 OK" usageBody)) "i1" _
    _ "rows_read_count" 42 rfl rfl rfl rfl (by decide)

/-- C7: `GetUsage` calls exactly `/v1/instances/<instanceID>/usage`, whatever the
organization, and on every status other than 200 it returns the count 0 with the error
`failed to get instance usage: <status line>`, which is not the membership error. -/
theorem getUsage_unscoped (i : InstancesClient) (instanceID : String) :
    (i.GetUsage instanceID).calls
      = [⟨"GET", "/v1/instances/" ++ instanceID ++ "/usage", none⟩] ∧
    (∀ r, i.client.Do ⟨"GET", "/v1/instances/" ++ instanceID ++ "/usage", none⟩ = .ok r →
      r.StatusCode ≠ 200 →
      (i.GetUsage instanceID).ret
        = (0, some (.text ("failed to get instance usage: " ++ r.Status))) ∧
      (i.GetUsage instanceID).ret.2 ≠ some (notMemberErr i.client.org)) := by
  refine ⟨?_, ?_⟩
  · unfold InstancesClient.GetUsage
    simp only [Client.Get]
    split
    · rfl
    · split <;> rfl
  · intro r hr hs
    have hret : (i.GetUsage instanceID).ret
        = (0, some (.text ("failed to get instance usage: " ++ r.Status))) := by
      simp [InstancesClient.GetUsage, Client.Get, hr, hs, StatusOK]
    refine ⟨hret, ?_⟩
    rw [hret]
    intro h
    injection h with h
    exact text_ne_of_head _ _ _ _ (by decide) (by decide) (by decide) h

theorem getUsage_unscoped_witness :
    (InstancesClient.GetUsage (mockClient "acme" (mockResponse 403 "403 Forbidden" notFoundBody))
        "i1").ret = (0, some (.text "failed to get instance usage: 403 Forbidden")) :=
  ((getUsage_unscoped (mockClient "acme" (mockResponse 403 "403 Forbidden" notFoundBody))
    "i1").2 _ rfl (by decide)).1
